import Mathlib

/-!
Verification of the arm64 executor header (src/arm64/executor/main.h) of
sca-fuzzer-arm64: a shallow embedding of the cache configuration macros,
the sandbox memory layout, the derived offset constants, and the external
interface operations described by the design document.
-/

namespace Arm64Executor

/-- The build-time cache configuration: the optional preprocessor macros
L1D_SIZE_K (the L1 data-cache size in kilobytes) and L1D_ASSOCIATIVITY.
Each is `none` when the macro is left undefined at build time. -/
structure CacheConfig where
  l1d_size_k : Option Nat
  l1d_assoc : Option Nat
deriving DecidableEq, Repr

/-- L1D_ASSOCIATIVITY: the configured associativity, falling back to 2-way
when the macro is undefined (main.h lines 14-17). -/
def L1D_ASSOCIATIVITY (cfg : CacheConfig) : Nat :=
  match cfg.l1d_assoc with
  | some a => a
  | none => 2

/-- L1D_SIZE: when L1D_SIZE_K is defined, the size in kilobytes is
transformed into bytes; otherwise the fallback is 32KB (main.h lines 19-25). -/
def L1D_SIZE (cfg : CacheConfig) : Nat :=
  match cfg.l1d_size_k with
  | some k => k * 1024
  | none => 32768

/-- L1D_CONFLICT_DISTANCE = L1D_SIZE / L1D_ASSOCIATIVITY (main.h line 27). -/
def L1D_CONFLICT_DISTANCE (cfg : CacheConfig) : Nat :=
  L1D_SIZE cfg / L1D_ASSOCIATIVITY cfg

/-- The cache configuration with both macros undefined: both fallbacks apply
(32KB, 2-way), as on the RPi4 Cortex-A72 described in the header comment. -/
def defaultCacheConfig : CacheConfig := ⟨none, none⟩

-- Executor configuration interface defaults (main.h lines 30-35)

/-- UARCH_RESET_ROUNDS_DEFAULT (main.h line 31). -/
def UARCH_RESET_ROUNDS_DEFAULT : Nat := 1

/-- ENABLE_FAULTY_DEFAULT (main.h line 33). -/
def ENABLE_FAULTY_DEFAULT : Nat := 0

/-- PRE_RUN_FLUSH_DEFAULT (main.h line 35). -/
def PRE_RUN_FLUSH_DEFAULT : Nat := 1

-- Measurement results (main.h lines 39-46)

/-- HTRACE_WIDTH (main.h line 39). -/
def HTRACE_WIDTH : Nat := 1

/-- NUM_PFC (main.h line 40). -/
def NUM_PFC : Nat := 3

/-- measurement_t: HTRACE_WIDTH hardware-trace words and NUM_PFC
performance-counter values, each a uint64_t (main.h lines 42-46). -/
structure Measurement where
  htrace : Fin HTRACE_WIDTH → Nat
  pfc : Fin NUM_PFC → Nat

/-- sizeof(uint64_t) on arm64. -/
def sizeof_uint64 : Nat := 8

/-- sizeof(measurement_t): HTRACE_WIDTH + NUM_PFC uint64_t words with no
padding (all members are uint64_t). -/
def sizeof_measurement_t : Nat :=
  HTRACE_WIDTH * sizeof_uint64 + NUM_PFC * sizeof_uint64

-- Sandbox (main.h lines 51-78)

/-- WORKING_MEMORY_SIZE (main.h line 51). -/
def WORKING_MEMORY_SIZE : Nat := 1048576

/-- MAIN_REGION_SIZE (main.h line 52). -/
def MAIN_REGION_SIZE : Nat := 4096

/-- FAULTY_REGION_SIZE (main.h line 53). -/
def FAULTY_REGION_SIZE : Nat := 4096

/-- OVERFLOW_REGION_SIZE (main.h line 54). -/
def OVERFLOW_REGION_SIZE : Nat := 4096

/-- REG_INITIALIZATION_REGION_SIZE (main.h line 55). -/
def REG_INITIALIZATION_REGION_SIZE : Nat := 64

/-- EVICT_REGION_SIZE = L1D_SIZE (main.h line 56). -/
def EVICT_REGION_SIZE (cfg : CacheConfig) : Nat := L1D_SIZE cfg

/-- The fields of struct Sandbox, one constructor per member
(main.h lines 61-70). -/
inductive SandboxField where
  | eviction_region
  | lower_overflow
  | main_region
  | faulty_region
  | upper_overflow
  | stored_rsp
  | latest_measurement
deriving DecidableEq, Repr

/-- The declaration order of the members of struct Sandbox
(main.h lines 61-70). -/
def sandboxFieldOrder : List SandboxField :=
  [.eviction_region, .lower_overflow, .main_region, .faulty_region,
   .upper_overflow, .stored_rsp, .latest_measurement]

/-- The byte size of each member of struct Sandbox, from its declared type
(main.h lines 61-70). -/
def sandboxFieldSize (cfg : CacheConfig) : SandboxField → Nat
  | .eviction_region => EVICT_REGION_SIZE cfg
  | .lower_overflow => OVERFLOW_REGION_SIZE
  | .main_region => MAIN_REGION_SIZE
  | .faulty_region => FAULTY_REGION_SIZE
  | .upper_overflow => OVERFLOW_REGION_SIZE
  | .stored_rsp => sizeof_uint64
  | .latest_measurement => sizeof_measurement_t

/-- The byte offset of a field inside a C struct laid out as the given field
list, each field placed directly after the previous one (contiguous layout,
no padding: every member size here is a multiple of its alignment). -/
def offsetIn (cfg : CacheConfig) : List SandboxField → SandboxField → Nat
  | [], _ => 0
  | g :: gs, f => if g = f then 0 else sandboxFieldSize cfg g + offsetIn cfg gs f

/-- The byte offset of a member of struct Sandbox from the start of the
struct. -/
def sandboxOffset (cfg : CacheConfig) (f : SandboxField) : Nat :=
  offsetIn cfg sandboxFieldOrder f

/-- sizeof(sandbox_t): the sum of all member sizes. -/
def sandboxTotalSize (cfg : CacheConfig) : Nat :=
  (sandboxFieldOrder.map (sandboxFieldSize cfg)).sum

/-- The layout of struct Sandbox as an association list of fields with their
sizes, in declaration order (main.h lines 61-70). -/
def sandboxLayout (cfg : CacheConfig) : List (SandboxField × Nat) :=
  sandboxFieldOrder.map (fun f => (f, sandboxFieldSize cfg f))

/-- The sandbox layout as the specification lists it in its data-model
section: eviction_region of L1 data-cache size, then lower_overflow (4096),
main_region (4096), faulty_region (4096), upper_overflow (4096),
stored_rsp (8 bytes), latest_measurement, in exactly this order. Written
from the words of the spec, to be compared with `sandboxLayout`. -/
def specSandboxLayout (cfg : CacheConfig) : List (SandboxField × Nat) :=
  [(.eviction_region, L1D_SIZE cfg), (.lower_overflow, 4096),
   (.main_region, 4096), (.faulty_region, 4096), (.upper_overflow, 4096),
   (.stored_rsp, 8), (.latest_measurement, sizeof_measurement_t)]

/-- REG_INIT_OFFSET (main.h line 75). -/
def REG_INIT_OFFSET : Nat := 8192

/-- EVICT_REGION_OFFSET (main.h line 76). -/
def EVICT_REGION_OFFSET (cfg : CacheConfig) : Nat :=
  EVICT_REGION_SIZE cfg + OVERFLOW_REGION_SIZE

/-- RSP_OFFSET (main.h line 77). -/
def RSP_OFFSET : Nat := 12288

/-- MEASUREMENT_OFFSET (main.h line 78). -/
def MEASUREMENT_OFFSET : Nat := 12296

-- Test case (main.h lines 81-85)

/-- MAX_TEST_CASE_SIZE (main.h line 82). -/
def MAX_TEST_CASE_SIZE : Nat := 4096

/-- MAX_MEASUREMENT_CODE_SIZE (main.h line 84). -/
def MAX_MEASUREMENT_CODE_SIZE : Nat := 4096 * 2

-- Inputs (main.h lines 88-91)

/-- REG_INITIALIZATION_REGION_SIZE_ALIGNED (main.h line 88). -/
def REG_INITIALIZATION_REGION_SIZE_ALIGNED : Nat := 4096

/-- INPUT_SIZE (main.h line 89). -/
def INPUT_SIZE : Nat :=
  MAIN_REGION_SIZE + FAULTY_REGION_SIZE + REG_INITIALIZATION_REGION_SIZE_ALIGNED

-- External interface operations. The header declares trace_test_case and
-- load_template (main.h lines 94-95) but the repository snapshot holds only
-- the header, so the operation bodies below are modelled from the design
-- document.

/-- The error taxonomy of the design document: OutOfRange (bad input index),
UnknownTemplate (unrecognized attack template), CorruptedSandbox (overflow
canary violated), SizeViolation (test case or template exceeds bounds). -/
inductive ExecutorError where
  | OutOfRange
  | UnknownTemplate
  | CorruptedSandbox
  | SizeViolation
deriving DecidableEq, Repr

/-- The two known attack templates, template_l1d_prime_probe and
template_l1d_flush_reload (main.h lines 96-97). -/
inductive AttackTemplate where
  | l1d_prime_probe
  | l1d_flush_reload
deriving DecidableEq, Repr

/-- The integer status code returned to the caller: 0 on success, non-zero
when an error occurred. -/
def statusCode : Option ExecutorError → Int
  | none => 0
  | some _ => 1

/-- Modelled from the spec: trace_test_case (declared at main.h line 94,
body not in the repository snapshot). It consumes the currently loaded test
case and input sequence; with an unknown/unselected template it aborts with
UnknownTemplate; otherwise it runs the measurement cycle once per input
vector in order, writing one Measurement per input into the caller-visible
measurements buffer, and reports CorruptedSandbox (still recording every
measurement) when any run finds the overflow canary violated. The per-run
reset/prime/execute/probe cycle is abstracted as `run`, returning the
measurement and the corruption flag of that run. -/
def trace_test_case (tmpl : Option AttackTemplate) (inpts : List α)
    (run : α → Measurement × Bool) : List Measurement × Option ExecutorError :=
  match tmpl with
  | none => ([], some .UnknownTemplate)
  | some _ =>
    let results := inpts.map run
    (results.map Prod.fst,
     if results.any Prod.snd then some .CorruptedSandbox else none)

/-- Modelled from the spec: load_template (declared at main.h line 95, body
not in the repository snapshot). It consumes a test-case byte length, which
must be at most MAX_TEST_CASE_SIZE, and splices the test case into the
selected template; it fails with SizeViolation when the size exceeds the
bound and with UnknownTemplate when no template has been selected. -/
def load_template (tc_size : Nat) (tmpl : Option AttackTemplate) :
    Except ExecutorError Unit :=
  if MAX_TEST_CASE_SIZE < tc_size then .error .SizeViolation
  else
    match tmpl with
    | none => .error .UnknownTemplate
    | some _ => .ok ()

/-- Modelled from the spec: the Input Installer (no function of its own in
the header; INPUT_SIZE at main.h lines 88-89 sizes its copy). Given an
input-vector index i, it checks only that i is within the current input
count, failing with OutOfRange otherwise, and copies the INPUT_SIZE bytes
of input vector i into main_region ++ faulty_region ++ the
register-initialization area, returned here as the three written areas. -/
def install_input (inpts : List (List Nat)) (i : Nat) :
    Except ExecutorError (List Nat × List Nat × List Nat) :=
  if i < inpts.length then
    let v := inpts.getD i []
    .ok (v.take MAIN_REGION_SIZE,
         (v.drop MAIN_REGION_SIZE).take FAULTY_REGION_SIZE,
         (v.drop (MAIN_REGION_SIZE + FAULTY_REGION_SIZE)).take
            REG_INITIALIZATION_REGION_SIZE_ALIGNED)
  else .error .OutOfRange

-- Theorems

/-- Claim C1: for every cache configuration, REG_INIT_OFFSET equals
MAIN_REGION_SIZE + FAULTY_REGION_SIZE (8192), RSP_OFFSET equals
MAIN_REGION_SIZE + FAULTY_REGION_SIZE + OVERFLOW_REGION_SIZE (12288),
MEASUREMENT_OFFSET equals RSP_OFFSET + sizeof(stored_rsp) (12296), and
EVICT_REGION_OFFSET equals EVICT_REGION_SIZE + OVERFLOW_REGION_SIZE; each
equals the sum of the sizes of the Sandbox fields that precede the field it
addresses, RSP_OFFSET and MEASUREMENT_OFFSET measured from the start of
main_region and EVICT_REGION_OFFSET from the start of the sandbox. -/
theorem offsets_consistent_with_field_sizes (cfg : CacheConfig) :
    REG_INIT_OFFSET = MAIN_REGION_SIZE + FAULTY_REGION_SIZE ∧
    REG_INIT_OFFSET = 8192 ∧
    RSP_OFFSET = MAIN_REGION_SIZE + FAULTY_REGION_SIZE + OVERFLOW_REGION_SIZE ∧
    RSP_OFFSET = 12288 ∧
    MEASUREMENT_OFFSET = RSP_OFFSET + sizeof_uint64 ∧
    MEASUREMENT_OFFSET = 12296 ∧
    EVICT_REGION_OFFSET cfg = EVICT_REGION_SIZE cfg + OVERFLOW_REGION_SIZE ∧
    sandboxOffset cfg .main_region + RSP_OFFSET =
      sandboxOffset cfg .stored_rsp ∧
    sandboxOffset cfg .main_region + MEASUREMENT_OFFSET =
      sandboxOffset cfg .latest_measurement ∧
    EVICT_REGION_OFFSET cfg = sandboxOffset cfg .main_region := by
  refine ⟨by decide, by decide, by decide, by decide, by decide, by decide,
    rfl, ?_, ?_, ?_⟩ <;>
    simp +decide [sandboxOffset, sandboxFieldOrder, offsetIn, sandboxFieldSize,
      EVICT_REGION_OFFSET, RSP_OFFSET, MEASUREMENT_OFFSET, MAIN_REGION_SIZE,
      FAULTY_REGION_SIZE, OVERFLOW_REGION_SIZE, sizeof_uint64,
      sizeof_measurement_t, HTRACE_WIDTH, NUM_PFC]

/-- Witness for C1: the offset consistency instantiated at the default
cache configuration. -/
theorem offsets_consistent_with_field_sizes_default :
    REG_INIT_OFFSET = MAIN_REGION_SIZE + FAULTY_REGION_SIZE ∧
    REG_INIT_OFFSET = 8192 ∧
    RSP_OFFSET = MAIN_REGION_SIZE + FAULTY_REGION_SIZE + OVERFLOW_REGION_SIZE ∧
    RSP_OFFSET = 12288 ∧
    MEASUREMENT_OFFSET = RSP_OFFSET + sizeof_uint64 ∧
    MEASUREMENT_OFFSET = 12296 ∧
    EVICT_REGION_OFFSET defaultCacheConfig =
      EVICT_REGION_SIZE defaultCacheConfig + OVERFLOW_REGION_SIZE ∧
    sandboxOffset defaultCacheConfig .main_region + RSP_OFFSET =
      sandboxOffset defaultCacheConfig .stored_rsp ∧
    sandboxOffset defaultCacheConfig .main_region + MEASUREMENT_OFFSET =
      sandboxOffset defaultCacheConfig .latest_measurement ∧
    EVICT_REGION_OFFSET defaultCacheConfig =
      sandboxOffset defaultCacheConfig .main_region :=
  offsets_consistent_with_field_sizes defaultCacheConfig

/-- Claim C2: the Sandbox is a single contiguous record whose fields appear
in exactly the order eviction_region (EVICT_REGION_SIZE bytes),
lower_overflow (4096), main_region (4096), faulty_region (4096),
upper_overflow (4096), stored_rsp (8), latest_measurement — the layout from
the source equals the layout the spec lists, the record starts at offset 0,
and every field starts exactly where the previous one ends. -/
theorem sandbox_layout_fixed_contiguous (cfg : CacheConfig) :
    sandboxLayout cfg = specSandboxLayout cfg ∧
    sandboxOffset cfg .eviction_region = 0 ∧
    sandboxOffset cfg .lower_overflow =
      sandboxOffset cfg .eviction_region + sandboxFieldSize cfg .eviction_region ∧
    sandboxOffset cfg .main_region =
      sandboxOffset cfg .lower_overflow + sandboxFieldSize cfg .lower_overflow ∧
    sandboxOffset cfg .faulty_region =
      sandboxOffset cfg .main_region + sandboxFieldSize cfg .main_region ∧
    sandboxOffset cfg .upper_overflow =
      sandboxOffset cfg .faulty_region + sandboxFieldSize cfg .faulty_region ∧
    sandboxOffset cfg .stored_rsp =
      sandboxOffset cfg .upper_overflow + sandboxFieldSize cfg .upper_overflow ∧
    sandboxOffset cfg .latest_measurement =
      sandboxOffset cfg .stored_rsp + sandboxFieldSize cfg .stored_rsp ∧
    sandboxTotalSize cfg =
      sandboxOffset cfg .latest_measurement +
        sandboxFieldSize cfg .latest_measurement := by
  refine ⟨?_, ?_, ?_, ?_, ?_, ?_, ?_, ?_, ?_⟩ <;>
    simp +decide [sandboxLayout, specSandboxLayout, sandboxOffset,
      sandboxFieldOrder, offsetIn, sandboxFieldSize, sandboxTotalSize,
      EVICT_REGION_SIZE, MAIN_REGION_SIZE, FAULTY_REGION_SIZE,
      OVERFLOW_REGION_SIZE, sizeof_uint64, sizeof_measurement_t,
      HTRACE_WIDTH, NUM_PFC]

/-- Witness for C2: the layout equality and contiguity instantiated at the
default cache configuration, with the first conjunct displayed. -/
theorem sandbox_layout_fixed_contiguous_default :
    sandboxLayout defaultCacheConfig = specSandboxLayout defaultCacheConfig :=
  (sandbox_layout_fixed_contiguous defaultCacheConfig).1

/-- Claim C3: for every cache configuration, EVICT_REGION_SIZE = L1D_SIZE,
where L1D_SIZE is k * 1024 when the cache size is supplied as k kilobytes
and 32768 when it is undefined; moreover this is the size the sandbox
layout gives the eviction_region field. -/
theorem evict_region_size_eq_l1d_size (cfg : CacheConfig) (k : Nat) :
    EVICT_REGION_SIZE cfg = L1D_SIZE cfg ∧
    sandboxFieldSize cfg .eviction_region = L1D_SIZE cfg ∧
    L1D_SIZE ⟨some k, cfg.l1d_assoc⟩ = k * 1024 ∧
    L1D_SIZE ⟨none, cfg.l1d_assoc⟩ = 32768 :=
  ⟨rfl, rfl, rfl, rfl⟩

/-- Witness for C3: the eviction-region size facts instantiated at the
default cache configuration and at a 48KB configured size. -/
theorem evict_region_size_eq_l1d_size_default :
    EVICT_REGION_SIZE defaultCacheConfig = L1D_SIZE defaultCacheConfig ∧
    sandboxFieldSize defaultCacheConfig .eviction_region =
      L1D_SIZE defaultCacheConfig ∧
    L1D_SIZE ⟨some 48, defaultCacheConfig.l1d_assoc⟩ = 48 * 1024 ∧
    L1D_SIZE ⟨none, defaultCacheConfig.l1d_assoc⟩ = 32768 :=
  evict_region_size_eq_l1d_size defaultCacheConfig 48

/-- Claim C7: the configuration defaults are uarch_reset_rounds = 1
(UARCH_RESET_ROUNDS_DEFAULT), faulty-page enable off
(ENABLE_FAULTY_DEFAULT = 0), and pre-run flush on
(PRE_RUN_FLUSH_DEFAULT = 1). -/
theorem configuration_defaults :
    UARCH_RESET_ROUNDS_DEFAULT = 1 ∧
    ENABLE_FAULTY_DEFAULT = 0 ∧
    PRE_RUN_FLUSH_DEFAULT = 1 := by
  decide

/-- Claim C8: L1D_CONFLICT_DISTANCE equals L1D_SIZE / L1D_ASSOCIATIVITY
(one cache way), so EVICT_REGION_SIZE = L1D_ASSOCIATIVITY *
L1D_CONFLICT_DISTANCE whenever the associativity divides the cache size;
under the fallback 32768-byte 2-way configuration the conflict distance is
16384. -/
theorem conflict_distance_is_way_size (cfg : CacheConfig)
    (h : L1D_ASSOCIATIVITY cfg ∣ L1D_SIZE cfg) :
    L1D_CONFLICT_DISTANCE cfg = L1D_SIZE cfg / L1D_ASSOCIATIVITY cfg ∧
    EVICT_REGION_SIZE cfg = L1D_ASSOCIATIVITY cfg * L1D_CONFLICT_DISTANCE cfg ∧
    L1D_CONFLICT_DISTANCE defaultCacheConfig = 16384 :=
  ⟨rfl, (Nat.mul_div_cancel' h).symm, by decide⟩

/-- Witness for C8: at the default configuration the associativity 2
divides the size 32768 and the conflict-distance facts hold. -/
theorem conflict_distance_is_way_size_default :
    L1D_ASSOCIATIVITY defaultCacheConfig ∣ L1D_SIZE defaultCacheConfig ∧
    (L1D_CONFLICT_DISTANCE defaultCacheConfig =
      L1D_SIZE defaultCacheConfig / L1D_ASSOCIATIVITY defaultCacheConfig ∧
    EVICT_REGION_SIZE defaultCacheConfig =
      L1D_ASSOCIATIVITY defaultCacheConfig *
        L1D_CONFLICT_DISTANCE defaultCacheConfig ∧
    L1D_CONFLICT_DISTANCE defaultCacheConfig = 16384) :=
  ⟨by decide, conflict_distance_is_way_size defaultCacheConfig (by decide)⟩

/-- Claim C9: under the default cache configuration the total Sandbox size
is 32768 + 4 * 4096 + 8 + 32 = 49192 bytes, which does not exceed
WORKING_MEMORY_SIZE = 1048576. -/
theorem sandbox_fits_in_working_memory :
    EVICT_REGION_SIZE defaultCacheConfig = 32768 ∧
    sandboxTotalSize defaultCacheConfig = 32768 + 4 * 4096 + 8 + 32 ∧
    sandboxTotalSize defaultCacheConfig = 49192 ∧
    WORKING_MEMORY_SIZE = 1048576 ∧
    sandboxTotalSize defaultCacheConfig ≤ WORKING_MEMORY_SIZE := by
  decide

/-- Claim C10: every input vector occupies exactly INPUT_SIZE =
MAIN_REGION_SIZE + FAULTY_REGION_SIZE +
REG_INITIALIZATION_REGION_SIZE_ALIGNED = 12288 bytes, three full
4096-byte pages, while only REG_INITIALIZATION_REGION_SIZE = 64 bytes of
the register-initialization page carry register seed data: the area is
padded from 64 to 4096 so the vector is a whole number of pages. -/
theorem input_size_page_aligned :
    INPUT_SIZE = MAIN_REGION_SIZE + FAULTY_REGION_SIZE +
      REG_INITIALIZATION_REGION_SIZE_ALIGNED ∧
    INPUT_SIZE = 12288 ∧
    INPUT_SIZE = 3 * 4096 ∧
    REG_INITIALIZATION_REGION_SIZE = 64 ∧
    REG_INITIALIZATION_REGION_SIZE_ALIGNED = 4096 ∧
    REG_INITIALIZATION_REGION_SIZE < REG_INITIALIZATION_REGION_SIZE_ALIGNED ∧
    INPUT_SIZE % 4096 = 0 := by
  decide

/-- Splitting a list of length a + b + c at a and then at b recovers the
list. -/
theorem take_drop_take_eq (v : List Nat) (a b c : Nat)
    (h : v.length = a + b + c) :
    v.take a ++ ((v.drop a).take b ++ (v.drop (a + b)).take c) = v := by
  have e1 : (v.drop (a + b)).take c = v.drop (a + b) :=
    List.take_of_length_le (by simp [List.length_drop]; omega)
  have e2 : v.drop (a + b) = (v.drop a).drop b := by
    rw [List.drop_drop, Nat.add_comm]
  rw [e1, e2, List.take_append_drop, List.take_append_drop]

/-- Claim C4: trace_test_case produces exactly one Measurement per input
vector, in input order, in the caller-visible measurements buffer, and its
status code is 0 exactly on success and non-zero exactly when the run
failed with UnknownTemplate, CorruptedSandbox, or OutOfRange. -/
theorem trace_test_case_one_measurement_per_input {α : Type}
    (t : AttackTemplate) (tmpl : Option AttackTemplate) (inpts : List α)
    (run : α → Measurement × Bool) :
    (trace_test_case (some t) inpts run).1 =
      inpts.map (fun v => (run v).1) ∧
    (trace_test_case (some t) inpts run).1.length = inpts.length ∧
    (statusCode (trace_test_case tmpl inpts run).2 = 0 ↔
      (trace_test_case tmpl inpts run).2 = none) ∧
    (statusCode (trace_test_case tmpl inpts run).2 ≠ 0 ↔
      ((trace_test_case tmpl inpts run).2 = some .UnknownTemplate ∨
       (trace_test_case tmpl inpts run).2 = some .CorruptedSandbox ∨
       (trace_test_case tmpl inpts run).2 = some .OutOfRange)) := by
  refine ⟨by simp [trace_test_case], by simp [trace_test_case], ?_, ?_⟩ <;>
  · cases tmpl with
    | none => simp [trace_test_case, statusCode]
    | some t2 =>
      simp only [trace_test_case]
      by_cases h : (inpts.map run).any Prod.snd <;> simp [h, statusCode]

/-- A run step returning a fixed measurement and a clean canary, used to
instantiate the orchestrator theorems. -/
def constRun : Nat → Measurement × Bool :=
  fun _ => (⟨fun _ => 0, fun _ => 0⟩, false)

/-- Witness for C4: the per-input measurement and status facts at a
two-element input sequence with the Prime+Probe template selected. -/
theorem trace_test_case_one_measurement_per_input_concrete :
    (trace_test_case (some .l1d_prime_probe) [0, 1] constRun).1 =
      [0, 1].map (fun v => (constRun v).1) ∧
    (trace_test_case (some .l1d_prime_probe) [0, 1] constRun).1.length =
      [0, 1].length ∧
    (statusCode (trace_test_case (some .l1d_prime_probe) [0, 1] constRun).2 = 0 ↔
      (trace_test_case (some .l1d_prime_probe) [0, 1] constRun).2 = none) ∧
    (statusCode (trace_test_case (some .l1d_prime_probe) [0, 1] constRun).2 ≠ 0 ↔
      ((trace_test_case (some .l1d_prime_probe) [0, 1] constRun).2 =
        some .UnknownTemplate ∨
       (trace_test_case (some .l1d_prime_probe) [0, 1] constRun).2 =
        some .CorruptedSandbox ∨
       (trace_test_case (some .l1d_prime_probe) [0, 1] constRun).2 =
        some .OutOfRange)) :=
  trace_test_case_one_measurement_per_input .l1d_prime_probe
    (some .l1d_prime_probe) [0, 1] constRun

/-- Claim C5: load_template rejects size MAX_TEST_CASE_SIZE + 1 with
SizeViolation, accepts size exactly MAX_TEST_CASE_SIZE, and fails whenever
the size exceeds MAX_TEST_CASE_SIZE or no template has been selected. -/
theorem load_template_size_bounds (t : AttackTemplate)
    (tmpl : Option AttackTemplate) (s n : Nat)
    (hs : MAX_TEST_CASE_SIZE < s) :
    load_template (MAX_TEST_CASE_SIZE + 1) tmpl = .error .SizeViolation ∧
    load_template MAX_TEST_CASE_SIZE (some t) = .ok () ∧
    (∃ e, load_template s tmpl = .error e) ∧
    (∃ e, load_template n none = .error e) := by
  refine ⟨?_, ?_, ⟨.SizeViolation, ?_⟩, ?_⟩
  · simp [load_template]
  · simp [load_template]
  · simp [load_template, hs]
  · by_cases h : MAX_TEST_CASE_SIZE < n
    · exact ⟨.SizeViolation, by simp [load_template, h]⟩
    · exact ⟨.UnknownTemplate, by simp [load_template, h]⟩

/-- Witness for C5: the size-bound facts at size 4097 with the Prime+Probe
template selected. -/
theorem load_template_size_bounds_concrete :
    load_template (MAX_TEST_CASE_SIZE + 1) (some .l1d_prime_probe) =
      .error .SizeViolation ∧
    load_template MAX_TEST_CASE_SIZE (some .l1d_prime_probe) = .ok () ∧
    (∃ e, load_template 4097 (some .l1d_prime_probe) = .error e) ∧
    (∃ e, load_template 64 none = .error e) :=
  load_template_size_bounds .l1d_prime_probe (some .l1d_prime_probe) 4097 64
    (by decide)

/-- Claim C6: for every in-bounds input index the Input Installer copies
exactly INPUT_SIZE bytes of input vector i into main_region ++
faulty_region ++ the register-initialization area; for every out-of-bounds
index it fails with OutOfRange, and this bounds check is the only
precondition it validates (it succeeds exactly on in-bounds indices). -/
theorem install_input_copy_and_bounds (inpts : List (List Nat)) (i j : Nat)
    (hi : i < inpts.length) (hj : inpts.length ≤ j)
    (hv : (inpts.getD i []).length = INPUT_SIZE) :
    (∃ m f r, install_input inpts i = .ok (m, f, r) ∧
      m.length = MAIN_REGION_SIZE ∧
      f.length = FAULTY_REGION_SIZE ∧
      r.length = REG_INITIALIZATION_REGION_SIZE_ALIGNED ∧
      m.length + f.length + r.length = INPUT_SIZE ∧
      m ++ (f ++ r) = inpts.getD i []) ∧
    install_input inpts j = .error .OutOfRange ∧
    (∀ n, (∃ out, install_input inpts n = .ok out) ↔ n < inpts.length) := by
  have hsz : INPUT_SIZE = MAIN_REGION_SIZE + FAULTY_REGION_SIZE +
      REG_INITIALIZATION_REGION_SIZE_ALIGNED := rfl
  have hv12 : (inpts.getD i []).length = 12288 := by rw [hv]; decide
  have hm : ((inpts.getD i []).take MAIN_REGION_SIZE).length =
      MAIN_REGION_SIZE :=
    List.length_take_of_le (by rw [hv12]; decide)
  have hf : (((inpts.getD i []).drop MAIN_REGION_SIZE).take
      FAULTY_REGION_SIZE).length = FAULTY_REGION_SIZE :=
    List.length_take_of_le (by rw [List.length_drop, hv12]; decide)
  have hr : (((inpts.getD i []).drop
      (MAIN_REGION_SIZE + FAULTY_REGION_SIZE)).take
      REG_INITIALIZATION_REGION_SIZE_ALIGNED).length =
      REG_INITIALIZATION_REGION_SIZE_ALIGNED :=
    List.length_take_of_le (by rw [List.length_drop, hv12]; decide)
  refine ⟨?_, ?_, ?_⟩
  · exact ⟨(inpts.getD i []).take MAIN_REGION_SIZE,
      ((inpts.getD i []).drop MAIN_REGION_SIZE).take FAULTY_REGION_SIZE,
      ((inpts.getD i []).drop (MAIN_REGION_SIZE + FAULTY_REGION_SIZE)).take
        REG_INITIALIZATION_REGION_SIZE_ALIGNED,
      by simp [install_input, hi], hm, hf, hr,
      by rw [hm, hf, hr, hsz],
      take_drop_take_eq _ _ _ _ (by rw [hv, hsz])⟩
  · simp [install_input, Nat.not_lt.mpr hj]
  · intro n
    by_cases h : n < inpts.length <;> simp [install_input, h]

/-- Witness for C6: the installer copy and bounds facts at a one-vector
input sequence of an all-zero INPUT_SIZE-byte vector, index 0 in bounds and
index 1 out of bounds. -/
theorem install_input_copy_and_bounds_concrete :
    (∃ m f r,
      install_input [List.replicate INPUT_SIZE 0] 0 = .ok (m, f, r) ∧
      m.length = MAIN_REGION_SIZE ∧
      f.length = FAULTY_REGION_SIZE ∧
      r.length = REG_INITIALIZATION_REGION_SIZE_ALIGNED ∧
      m.length + f.length + r.length = INPUT_SIZE ∧
      m ++ (f ++ r) = [List.replicate INPUT_SIZE 0].getD 0 []) ∧
    install_input [List.replicate INPUT_SIZE 0] 1 = .error .OutOfRange ∧
    (∀ n, (∃ out, install_input [List.replicate INPUT_SIZE 0] n = .ok out) ↔
      n < [List.replicate INPUT_SIZE 0].length) :=
  install_input_copy_and_bounds [List.replicate INPUT_SIZE 0] 0 1
    (by simp) (by simp) (by simp)

end Arm64Executor
